import Mathlib

/-!
Shallow embedding of the interaction moderation and threading engine of the
church digital engagement platform (Django backend).

Sources embedded:
- `src/apps/interactions/models.py` (Comment, Reaction models)
- `src/backend/apps/content/models.py` (Interaction model and its methods)
- `src/backend/apps/interactions/comment_views.py`
  (PublicCommentViewSet.get_queryset, MemberCommentViewSet.create / reply)
- `src/backend/apps/interactions/reaction_views.py` (react_to_post)
- `src/backend/apps/content/interaction_views.py`
  (InteractionViewSet.check_response_permission / respond / hide / unhide / close)
- `src/apps/interactions/serializers.py`
  (CommentSerializer.get_replies / get_reply_count / to_representation,
   CommentCreateSerializer validation)

Database tables are lists of records; timestamps are naturals; ids are
naturals drawn from a fresh counter.  HTTP status codes are naturals.
-/

namespace Church

/-- User roles (`User.role` in the source). -/
inductive Role
  | VISITOR
  | MEMBER
  | MODERATOR
  | ADMIN
deriving DecidableEq, Repr

/-- The fields of the external `User` model consulted by this core. -/
structure User where
  id : Nat
  role : Role
deriving DecidableEq, Repr

/-- The fields of the external `Post` model consulted by this core. -/
structure Post where
  id : Nat
  author_id : Nat
  comments_enabled : Bool
  reactions_enabled : Bool
  is_published : Bool
  is_deleted : Bool
deriving DecidableEq, Repr

/-- `Comment.question_status` choices: OPEN / ANSWERED / CLOSED. -/
inductive QStatus
  | OPEN
  | ANSWERED
  | CLOSED
deriving DecidableEq, Repr

/-- The `Comment` model of `src/apps/interactions/models.py`. -/
structure Comment where
  id : Nat
  post : Nat
  user : Nat
  content : String
  parent : Option Nat
  is_question : Bool
  question_status : QStatus
  answered_by : Option Nat
  answered_at : Option Nat
  is_deleted : Bool
  deleted_at : Option Nat
  deleted_by : Option Nat
  is_flagged : Bool
  flagged_reason : String
  created_at : Nat
deriving DecidableEq, Repr

/-- `InteractionType` choices. -/
inductive IType
  | COMMENT
  | QUESTION
  | FLAGGED
deriving DecidableEq, Repr

/-- `InteractionStatus` choices. -/
inductive IStatus
  | OPEN
  | ANSWERED
  | CLOSED
  | PENDING
  | REVIEWED
  | ACTIONED
deriving DecidableEq, Repr

/-- The `Interaction` model of `src/backend/apps/content/models.py`. -/
structure Interaction where
  id : Nat
  post : Nat
  user : Nat
  parent : Option Nat
  content : String
  type : IType
  is_question : Bool
  status : IStatus
  is_flagged : Bool
  flagged_by : Option Nat
  flagged_at : Option Nat
  flag_reason : String
  responded_by : Option Nat
  responded_at : Option Nat
  is_hidden : Bool
  is_deleted : Bool
deriving DecidableEq, Repr

/-- `ReactionType` choices. -/
inductive RType
  | LIKE
  | AMEN
  | LOVE
  | INSIGHT
  | PRAISE
deriving DecidableEq, Repr

/-- The `Reaction` model (`unique_together = ['post', 'user']`). -/
structure Reaction where
  id : Nat
  post : Nat
  user : Nat
  reaction_type : RType
deriving DecidableEq, Repr

/-- Database state: the tables touched by the engine, plus a fresh-id counter. -/
structure St where
  posts : List Post
  comments : List Comment
  interactions : List Interaction
  reactions : List Reaction
  nextId : Nat
deriving DecidableEq, Repr

/-- A request viewer: anonymous (`AnonymousUser`) or an authenticated user. -/
inductive Viewer
  | anon
  | auth (u : User)
deriving DecidableEq, Repr

/-- `Post.objects.get(id=pid)`. -/
def findPost (st : St) (pid : Nat) : Option Post :=
  st.posts.find? (fun p => p.id == pid)

/-- The (post, user, content, is_question) correlation predicate on Comments,
as used by `Comment.objects.filter(post=..., user=..., content=..., is_question=True)`. -/
def commentMatches (post user : Nat) (content : String) (isQ : Bool) (c : Comment) : Bool :=
  c.post == post && c.user == user && c.content == content && c.is_question == isQ

/-- The (post, user, content, is_question) correlation predicate on Interactions,
as used by `Interaction.objects.filter(post=..., user=..., content=..., is_question=True)`. -/
def interactionMatches (post user : Nat) (content : String) (isQ : Bool) (i : Interaction) : Bool :=
  i.post == post && i.user == user && i.content == content && i.is_question == isQ

/-! ## Reaction toggle (`react_to_post` in reaction_views.py) -/

/-- Outcome of `react_to_post`: the three success messages, or an error status. -/
inductive ReactRes
  | created
  | updated
  | removed
  | error (code : Nat)
deriving DecidableEq, Repr

/-- `Reaction.objects.filter(post=post, user=request.user).first()`. -/
def findReaction (st : St) (pid uid : Nat) : Option Reaction :=
  st.reactions.find? (fun r => r.post == pid && r.user == uid)

/-- `react_to_post(request, post_id)` of
`src/backend/apps/interactions/reaction_views.py`.

Gates in source order: 404 on missing post, then 400 for unpublished,
reactions-disabled, and deleted posts; then toggle: same type removes the
row, different type updates it in place, no row creates one. -/
def react (st : St) (actor : User) (pid : Nat) (rt : RType) : ReactRes × St :=
  match findPost st pid with
  | none => (ReactRes.error 404, st)
  | some post =>
    if !post.is_published then (ReactRes.error 400, st)
    else if !post.reactions_enabled then (ReactRes.error 400, st)
    else if post.is_deleted then (ReactRes.error 400, st)
    else
      match findReaction st pid actor.id with
      | some ex =>
        if ex.reaction_type == rt then
          (ReactRes.removed,
            { st with reactions := st.reactions.filter (fun r => !(r.id == ex.id)) })
        else
          (ReactRes.updated,
            { st with reactions :=
                st.reactions.map (fun r =>
                  if r.id == ex.id then { r with reaction_type := rt } else r) })
      | none =>
        (ReactRes.created,
          { st with
              reactions := st.reactions ++
                [{ id := st.nextId, post := pid, user := actor.id, reaction_type := rt }],
              nextId := st.nextId + 1 })

/-- At most one Reaction row for a given (post, user) pair
(the `unique_together` constraint). -/
def atMostOneReaction (l : List Reaction) (pid uid : Nat) : Prop :=
  (l.filter (fun r => r.post == pid && r.user == uid)).length ≤ 1

instance (l : List Reaction) (pid uid : Nat) : Decidable (atMostOneReaction l pid uid) := by
  unfold atMostOneReaction
  infer_instance

/-! ## Visibility filter and serialization
(`PublicCommentViewSet.get_queryset` in comment_views.py;
`CommentSerializer.get_replies` / `get_reply_count` / `to_representation`
in serializers.py) -/

/-- `PublicCommentViewSet.get_queryset`: top-level comments of a post, with the
role-based question filter.  Anonymous viewers lose every question; viewers
whose role is not ADMIN or MODERATOR lose every question they did not author;
ADMIN and MODERATOR keep everything.  (The source orders by `-created_at`;
ordering is irrelevant to the membership and count properties proved here.) -/
def public_comment_queryset (st : St) (pid : Nat) (v : Viewer) : List Comment :=
  let base := st.comments.filter (fun c => c.post == pid && c.parent == none)
  match v with
  | Viewer.anon => base.filter (fun c => !c.is_question)
  | Viewer.auth u =>
    if u.role == Role.ADMIN || u.role == Role.MODERATOR then base
    else base.filter (fun c => !(c.is_question && !(c.user == u.id)))

/-- The per-reply role filter shared (textually duplicated in the source) by
`CommentSerializer.get_replies` and `CommentSerializer.get_reply_count`:
if the parent `obj` is the viewer's own comment every reply passes; an
anonymous viewer loses question replies; a viewer whose role is not ADMIN or
MODERATOR loses question replies they did not author; ADMIN and MODERATOR
keep everything. -/
def questionReplyFilter (obj : Comment) (v : Viewer) (r : Comment) : Bool :=
  match v with
  | Viewer.anon => !r.is_question
  | Viewer.auth u =>
    if obj.user == u.id then true
    else if u.role == Role.ADMIN || u.role == Role.MODERATOR then true
    else !(r.is_question && !(r.user == u.id))

/-- `CommentSerializer.get_replies(obj)`: the direct replies of `obj`, keeping
only rows with `is_deleted=False`, then applying the role-based question
filter.  The serializer recurses into each surviving reply with the same
viewer, so this function describes each nesting level independently. -/
def get_replies (st : St) (obj : Comment) (v : Viewer) : List Comment :=
  st.comments.filter
    (fun r => r.parent == some obj.id && !r.is_deleted && questionReplyFilter obj v r)

/-- `CommentSerializer.get_reply_count(obj)`: the count over the same
`is_deleted=False` plus role-based filter. -/
def get_reply_count (st : St) (obj : Comment) (v : Viewer) : Nat :=
  (st.comments.filter
    (fun r => r.parent == some obj.id && !r.is_deleted && questionReplyFilter obj v r)).length

/-- `CommentSerializer.to_representation`: the serialized `content` of a
comment; soft-deleted comments are masked with a fixed placeholder. -/
def displayContent (c : Comment) : String :=
  if c.is_deleted then "This comment has been removed by moderation." else c.content

/-! ## Comment creation (`MemberCommentViewSet.create` in comment_views.py) -/

/-- A fresh Comment row as saved by `CommentCreateSerializer.save(user=...)`
with default question/moderation fields. -/
def mkComment (cid pid uid : Nat) (content : String) (parent : Option Nat)
    (isQ : Bool) (now : Nat) : Comment :=
  { id := cid, post := pid, user := uid, content := content, parent := parent,
    is_question := isQ, question_status := QStatus.OPEN,
    answered_by := none, answered_at := none,
    is_deleted := false, deleted_at := none, deleted_by := none,
    is_flagged := false, flagged_reason := "", created_at := now }

/-- A fresh question Interaction row as created by the comment/reply views:
`Interaction.objects.create(post=..., user=..., content=..., type=QUESTION,
is_question=True, status=OPEN)`. -/
def mkQuestionInteraction (iid pid uid : Nat) (content : String) : Interaction :=
  { id := iid, post := pid, user := uid, parent := none, content := content,
    type := IType.QUESTION, is_question := true, status := IStatus.OPEN,
    is_flagged := false, flagged_by := none, flagged_at := none, flag_reason := "",
    responded_by := none, responded_at := none, is_hidden := false, is_deleted := false }

/-- ASCII whitespace, as stripped by Python's `str.strip()`. -/
def isSpace (c : Char) : Bool :=
  c == ' ' || c == '\t' || c == '\n' || c == '\r'

/-- Python's `value.strip()`: drop leading and trailing whitespace.
(Defined over the character list so that concrete proofs can evaluate it.) -/
def strip (s : String) : String :=
  ⟨((s.data.dropWhile isSpace).reverse.dropWhile isSpace).reverse⟩

/-- `CommentCreateSerializer` field validation (validate_content /
validate_post / validate_parent): returns true when every check passes.
`content` is checked unstripped for length and stripped for emptiness, and
stored stripped by the caller. -/
def commentDataValid (content : String) (post : Post) (parent : Option Comment) : Bool :=
  !(strip content == "") && !(content.length > 5000)
    && post.is_published && !post.is_deleted
    && (match parent with
        | some p => !p.is_deleted
        | none => true)

/-- `MemberCommentViewSet.create`: the comments-enabled gate runs before
validation and answers 403; a missing post and every serializer validation
failure answer 400; on success the Comment row is created (201) and, when
`is_question` is set, a mirror question Interaction is created too. -/
def create_comment (st : St) (actor : User) (pid : Nat) (content : String)
    (isQ : Bool) (now : Nat) : Nat × St :=
  match findPost st pid with
  | none => (400, st)
  | some post =>
    if !post.comments_enabled then (403, st)
    else if !(commentDataValid content post none) then (400, st)
    else
      let c : Comment := mkComment st.nextId pid actor.id (strip content) none isQ now
      let st1 : St := { st with comments := st.comments ++ [c], nextId := st.nextId + 1 }
      if isQ then
        (201, { st1 with
                  interactions := st1.interactions ++
                    [mkQuestionInteraction st1.nextId pid actor.id c.content],
                  nextId := st1.nextId + 1 })
      else (201, st1)

/-! ## Reply (`MemberCommentViewSet.reply` in comment_views.py) -/

/-- `MemberCommentViewSet.get_queryset` for the reply action followed by
`get_object`: all comments, minus — for viewers whose role is not ADMIN or
MODERATOR — questions they did not author; the parent is looked up by id
(404 on a filtered-out or missing row). -/
def findReplyParent (st : St) (actor : User) (pid : Nat) : Option Comment :=
  (st.comments.filter (fun c =>
      if actor.role == Role.ADMIN || actor.role == Role.MODERATOR then true
      else !(c.is_question && !(c.user == actor.id)))).find? (fun c => c.id == pid)

/-- `MemberCommentViewSet.reply`, in source order:
parent lookup; comments-enabled gate (403); serializer validation (400);
save of the reply Comment; the follow-up block (reopen the correlated
Interaction and the parent Comment when the asker follows up with a question,
falling back to creating a new Interaction on a correlation miss; a plain new
question reply also creates an Interaction); then the answer block (an ADMIN
or MODERATOR replying to a question marks the parent Comment ANSWERED and
bulk-updates every correlated Interaction to ANSWERED). -/
def reply (st : St) (actor : User) (pid : Nat) (content : String)
    (isQ : Bool) (now : Nat) : Nat × St :=
  match findReplyParent st actor pid with
  | none => (404, st)
  | some parent =>
    match findPost st parent.post with
    | none => (404, st)
    | some post =>
      if !post.comments_enabled then (403, st)
      else if !(commentDataValid content post (some parent)) then (400, st)
      else
        let c : Comment := mkComment st.nextId parent.post actor.id (strip content) (some pid) isQ now
        let st1 : St := { st with comments := st.comments ++ [c], nextId := st.nextId + 1 }
        let st2 : St :=
          if isQ && parent.is_question && parent.user == actor.id then
            match st1.interactions.find?
                (interactionMatches parent.post parent.user parent.content true) with
            | some orig =>
              let sta : St := { st1 with
                  interactions := st1.interactions.map (fun i =>
                    if i.id == orig.id then
                      { i with status := IStatus.OPEN,
                               responded_by := none, responded_at := none }
                    else i) }
              { sta with
                  comments := sta.comments.map (fun c2 =>
                    if c2.id == parent.id then
                      { c2 with question_status := QStatus.OPEN,
                                answered_by := none, answered_at := none }
                    else c2) }
            | none =>
              { st1 with
                  interactions := st1.interactions ++
                    [mkQuestionInteraction st1.nextId c.post actor.id c.content],
                  nextId := st1.nextId + 1 }
          else if isQ then
            { st1 with
                interactions := st1.interactions ++
                  [mkQuestionInteraction st1.nextId c.post actor.id c.content],
                nextId := st1.nextId + 1 }
          else st1
        let st3 : St :=
          if parent.is_question
              && (actor.role == Role.ADMIN || actor.role == Role.MODERATOR) then
            let stc : St := { st2 with
                comments := st2.comments.map (fun c2 =>
                  if c2.id == parent.id then
                    { c2 with question_status := QStatus.ANSWERED,
                              answered_by := some actor.id, answered_at := some now }
                  else c2) }
            { stc with
                interactions := stc.interactions.map (fun i =>
                  if interactionMatches parent.post parent.user parent.content true i then
                    { i with status := IStatus.ANSWERED,
                             responded_by := some actor.id, responded_at := some now }
                  else i) }
          else st2
        (201, st3)

/-! ## Moderation endpoints (`InteractionViewSet` in interaction_views.py) -/

/-- `InteractionViewSet.check_response_permission`: ADMIN responds to
anything; MODERATOR responds only to questions on posts they authored. -/
def check_response_permission (user : User) (inter : Interaction)
    (post_author : Nat) : Bool :=
  if user.role == Role.ADMIN then true
  else if user.role == Role.MODERATOR then
    inter.is_question && post_author == user.id
  else false

/-- `InteractionViewSet.get_queryset` followed by `get_object`: rows with
`is_deleted=False`; ADMIN and MODERATOR see all, other roles only their
own rows. -/
def findInteractionFor (st : St) (actor : User) (iid : Nat) : Option Interaction :=
  (st.interactions.filter (fun i =>
      !i.is_deleted &&
        (if actor.role == Role.ADMIN || actor.role == Role.MODERATOR then true
         else i.user == actor.id))).find? (fun i => i.id == iid)

/-- `Interaction.mark_answered(responder)` of content/models.py. -/
def markAnswered (i : Interaction) (uid now : Nat) : Interaction :=
  if i.is_question then
    { i with status := IStatus.ANSWERED,
             responded_by := some uid, responded_at := some now }
  else i

/-- The reply Interaction row created inside `respond`:
`parent=interaction, type=COMMENT, status=CLOSED`. -/
def mkReplyInteraction (iid pid uid parent : Nat) (content : String) : Interaction :=
  { id := iid, post := pid, user := uid, parent := some parent, content := content,
    type := IType.COMMENT, is_question := false, status := IStatus.CLOSED,
    is_flagged := false, flagged_by := none, flagged_at := none, flag_reason := "",
    responded_by := none, responded_at := none, is_hidden := false, is_deleted := false }

/-- `InteractionViewSet.respond`, in source order: object lookup; 400 unless
the interaction is a question; 403 unless `check_response_permission` (which
reads the post's `author_id`; the post FK always resolves in the source, the
`none` arm is unreachable on well-formed states); 400 on blank content; then
the reply Interaction is created, the correlated Comment — when found — gets
a reply Comment and is marked ANSWERED, and `mark_answered` runs on the
Interaction unconditionally. -/
def respond (st : St) (actor : User) (iid : Nat) (content : String)
    (now : Nat) : Nat × St :=
  match findInteractionFor st actor iid with
  | none => (404, st)
  | some inter =>
    if !inter.is_question then (400, st)
    else
      match findPost st inter.post with
      | none => (404, st)
      | some post =>
        if !(check_response_permission actor inter post.author_id) then (403, st)
        else if strip content == "" then (400, st)
        else
          let st1 : St := { st with
              interactions := st.interactions ++
                [mkReplyInteraction st.nextId inter.post actor.id inter.id (strip content)],
              nextId := st.nextId + 1 }
          let st2 : St :=
            match st1.comments.find?
                (commentMatches inter.post inter.user inter.content true) with
            | some oc =>
              let sta : St := { st1 with
                  comments := st1.comments ++
                    [mkComment st1.nextId inter.post actor.id (strip content)
                      (some oc.id) false now],
                  nextId := st1.nextId + 1 }
              { sta with
                  comments := sta.comments.map (fun c =>
                    if c.id == oc.id then
                      { c with question_status := QStatus.ANSWERED,
                               answered_by := some actor.id, answered_at := some now }
                    else c) }
            | none => st1
          (200, { st2 with
              interactions := st2.interactions.map (fun i =>
                if i.id == inter.id then markAnswered i actor.id now else i) })

/-- `InteractionViewSet.hide`: 403 unless the actor's role is ADMIN;
`interaction.hide()` sets `is_hidden`; then every Comment matching the
(post, user, content, is_question=True) correlation is soft-deleted. -/
def hide (st : St) (actor : User) (iid : Nat) : Nat × St :=
  if !(actor.role == Role.ADMIN) then (403, st)
  else
    match findInteractionFor st actor iid with
    | none => (404, st)
    | some inter =>
      let st1 : St := { st with
          interactions := st.interactions.map (fun i =>
            if i.id == inter.id then { i with is_hidden := true } else i) }
      (200, { st1 with
          comments := st1.comments.map (fun c =>
            if commentMatches inter.post inter.user inter.content true c then
              { c with is_deleted := true }
            else c) })

/-- `InteractionViewSet.unhide`: 403 unless the actor's role is ADMIN; clears
`is_hidden`; then every Comment matching the (post, user, content,
is_question=True) correlation is restored (`is_deleted=False`). -/
def unhide (st : St) (actor : User) (iid : Nat) : Nat × St :=
  if !(actor.role == Role.ADMIN) then (403, st)
  else
    match findInteractionFor st actor iid with
    | none => (404, st)
    | some inter =>
      let st1 : St := { st with
          interactions := st.interactions.map (fun i =>
            if i.id == inter.id then { i with is_hidden := false } else i) }
      (200, { st1 with
          comments := st1.comments.map (fun c =>
            if commentMatches inter.post inter.user inter.content true c then
              { c with is_deleted := false }
            else c) })

/-- `InteractionViewSet.close`: object lookup; 403 unless
`check_response_permission`; `interaction.close()` sets status CLOSED. -/
def close (st : St) (actor : User) (iid : Nat) : Nat × St :=
  match findInteractionFor st actor iid with
  | none => (404, st)
  | some inter =>
    match findPost st inter.post with
    | none => (404, st)
    | some post =>
      if !(check_response_permission actor inter post.author_id) then (403, st)
      else (200, { st with
          interactions := st.interactions.map (fun i =>
            if i.id == inter.id then { i with status := IStatus.CLOSED } else i) })

/-! ## Helper lemmas -/

lemma length_filter_filter_le {α} (p q : α → Bool) (l : List α) :
    ((l.filter p).filter q).length ≤ (l.filter q).length := by
  induction l with
  | nil => simp
  | cons a t ih =>
    rw [List.filter_cons]
    by_cases hp : p a = true
    · rw [if_pos hp, List.filter_cons, List.filter_cons]
      by_cases hq : q a = true
      · rw [if_pos hq, if_pos hq]
        simpa using ih
      · rw [if_neg hq, if_neg hq]
        exact ih
    · rw [if_neg hp, List.filter_cons]
      by_cases hq : q a = true
      · rw [if_pos hq]
        simp only [List.length_cons]
        exact Nat.le_succ_of_le ih
      · rw [if_neg hq]
        exact ih

lemma length_filter_map_eq {α} (f : α → α) (q : α → Bool) (l : List α)
    (h : ∀ a, q (f a) = q a) :
    ((l.map f).filter q).length = (l.filter q).length := by
  induction l with
  | nil => rfl
  | cons a t ih =>
    rw [List.map_cons, List.filter_cons, List.filter_cons, h]
    by_cases hq : q a = true
    · rw [if_pos hq, if_pos hq]
      simp [ih]
    · rw [if_neg hq, if_neg hq]
      exact ih

lemma filter_of_find?_eq_none {α} (p : α → Bool) (l : List α)
    (h : l.find? p = none) : l.filter p = [] := by
  rw [List.filter_eq_nil_iff]
  intro a ha
  exact List.find?_eq_none.mp h a ha

/-! ## Concrete fixtures used by witnesses and counterexamples -/

/-- A published post (id 1, author 1) with comments and reactions enabled. -/
def post1 : Post :=
  { id := 1, author_id := 1, comments_enabled := true,
    reactions_enabled := true, is_published := true, is_deleted := false }

/-- A state holding only `post1`, with every other table empty. -/
def stPostOnly : St :=
  { posts := [post1], comments := [], interactions := [], reactions := [],
    nextId := 10 }

/-- A published post (id 2, author 1) with comments and reactions disabled. -/
def post2 : Post :=
  { id := 2, author_id := 1, comments_enabled := false,
    reactions_enabled := false, is_published := true, is_deleted := false }

/-- A state holding only `post2`, with every other table empty. -/
def stPost2 : St :=
  { posts := [post2], comments := [], interactions := [], reactions := [],
    nextId := 10 }

/-- An OPEN question Comment (id 20) by member 2 on post 1. -/
def qComment : Comment :=
  { id := 20, post := 1, user := 2, content := "q", parent := none,
    is_question := true, question_status := QStatus.OPEN, answered_by := none,
    answered_at := none, is_deleted := false, deleted_at := none,
    deleted_by := none, is_flagged := false, flagged_reason := "",
    created_at := 0 }

/-- The OPEN question Interaction (id 30) correlated with `qComment`. -/
def qInteraction : Interaction :=
  { id := 30, post := 1, user := 2, parent := none, content := "q",
    type := IType.QUESTION, is_question := true, status := IStatus.OPEN,
    is_flagged := false, flagged_by := none, flagged_at := none,
    flag_reason := "", responded_by := none, responded_at := none,
    is_hidden := false, is_deleted := false }

/-- `post1` with the question present in both representations. -/
def stQI : St :=
  { posts := [post1], comments := [qComment], interactions := [qInteraction],
    reactions := [], nextId := 10 }

/-- The question Interaction in state CLOSED (id 31). -/
def closedQInteraction : Interaction :=
  { qInteraction with id := 31, status := IStatus.CLOSED }

/-- `post1` with only the CLOSED question interaction. -/
def stClosed : St :=
  { posts := [post1], comments := [], interactions := [closedQInteraction],
    reactions := [], nextId := 10 }

/-- `post1` with only the question Interaction — no correlated Comment. -/
def stInteractionOnly : St :=
  { posts := [post1], comments := [], interactions := [qInteraction],
    reactions := [], nextId := 10 }

lemma map_ite_id_of_forall_false {α} (p : α → Bool) (f : α → α) (l : List α)
    (h : ∀ a ∈ l, p a = false) :
    l.map (fun a => if p a then f a else a) = l := by
  induction l with
  | nil => rfl
  | cons a t ih =>
    have ha : p a = false := h a (List.mem_cons_self a t)
    have ht : ∀ b ∈ t, p b = false := fun b hb => h b (List.mem_cons_of_mem a hb)
    simp [ha, ih ht]

/-- An ANSWERED question Comment (id 21) authored by admin user 9 on post 1,
previously answered by user 3. -/
def adminQComment : Comment :=
  { qComment with
    id := 21
    user := 9
    question_status := QStatus.ANSWERED
    answered_by := some 3
    answered_at := some 1 }

/-- The ANSWERED question Interaction (id 32) correlated with `adminQComment`. -/
def adminQInteraction : Interaction :=
  { qInteraction with
    id := 32
    user := 9
    status := IStatus.ANSWERED
    responded_by := some 3
    responded_at := some 1 }

/-- `post1` with the admin-authored answered question in both tables. -/
def stAdminQ : St :=
  { posts := [post1], comments := [adminQComment],
    interactions := [adminQInteraction], reactions := [], nextId := 10 }

/-- `qComment` in state ANSWERED (answered by user 9). -/
def memberAnsweredQComment : Comment :=
  { qComment with
    question_status := QStatus.ANSWERED
    answered_by := some 9
    answered_at := some 1 }

/-- `qInteraction` in state ANSWERED (responded by user 9). -/
def memberAnsweredQInteraction : Interaction :=
  { qInteraction with
    status := IStatus.ANSWERED
    responded_by := some 9
    responded_at := some 1 }

/-- `post1` with member 2's answered question in both tables. -/
def stMemberAnswered : St :=
  { posts := [post1], comments := [memberAnsweredQComment],
    interactions := [memberAnsweredQInteraction], reactions := [],
    nextId := 10 }

/-- A plain COMMENT Interaction (id 33, is_question=false) by user 2 with
content "x" on post 1. -/
def plainInteraction : Interaction :=
  { qInteraction with
    id := 33
    content := "x"
    type := IType.COMMENT
    is_question := false }

/-- A question Comment (id 22) by user 2 with the same (post, user, content)
triple as `plainInteraction` but `is_question = true`. -/
def collidingQComment : Comment :=
  { qComment with
    id := 22
    content := "x" }

/-- State where hiding the non-question interaction collides with a question
Comment sharing its (post, user, content) triple. -/
def stCollide : St :=
  { posts := [post1], comments := [collidingQComment],
    interactions := [plainInteraction], reactions := [], nextId := 10 }

/-- A plain (non-question) Comment (id 23) by member 2 on post 1. -/
def ownParentComment : Comment :=
  { qComment with
    id := 23
    is_question := false
    content := "p" }

/-- A question Comment (id 24) by user 3, nested as a reply to comment 23. -/
def buriedQuestion : Comment :=
  { qComment with
    id := 24
    user := 3
    parent := some 23
    content := "bq" }

/-- State with user 3's question buried under member 2's comment. -/
def stBuried : St :=
  { posts := [post1], comments := [ownParentComment, buriedQuestion],
    interactions := [], reactions := [], nextId := 30 }

/-- A soft-deleted reply (id 25) by user 3 under comment 23. -/
def deletedReply : Comment :=
  { qComment with
    id := 25
    user := 3
    parent := some 23
    is_question := false
    is_deleted := true
    content := "d" }

/-- State with a soft-deleted reply under member 2's comment. -/
def stDeletedReply : St :=
  { posts := [post1], comments := [ownParentComment, deletedReply],
    interactions := [], reactions := [], nextId := 30 }

/-! ## C6: the reaction toggle cycle -/

/-- C6: for a post with reactions allowed (published, not deleted,
`reactions_enabled`), `react` with no existing (post, user) reaction returns
`created` and a row for (post, user, type) exists afterwards; with an
existing reaction of the same type it returns `removed` and no (post, user)
row remains; with an existing reaction of a different type it returns
`updated`, a (post, user) row with the new type exists, and the table size
is unchanged; and the at-most-one-row-per-(post, user) invariant is
preserved at every key by every such call. -/
theorem reaction_toggle_cycle (st : St) (u : User) (pid : Nat) (rt : RType)
    (post : Post) (hp : findPost st pid = some post)
    (hpub : post.is_published = true) (hen : post.reactions_enabled = true)
    (hdel : post.is_deleted = false) :
    (findReaction st pid u.id = none →
      (react st u pid rt).1 = ReactRes.created ∧
      ∃ r ∈ (react st u pid rt).2.reactions,
        r.post = pid ∧ r.user = u.id ∧ r.reaction_type = rt) ∧
    (∀ ex, findReaction st pid u.id = some ex → ex.reaction_type = rt →
      atMostOneReaction st.reactions pid u.id →
      (react st u pid rt).1 = ReactRes.removed ∧
      (react st u pid rt).2.reactions.filter
        (fun r => r.post == pid && r.user == u.id) = []) ∧
    (∀ ex, findReaction st pid u.id = some ex → ex.reaction_type ≠ rt →
      (react st u pid rt).1 = ReactRes.updated ∧
      (∃ r ∈ (react st u pid rt).2.reactions,
        r.post = pid ∧ r.user = u.id ∧ r.reaction_type = rt) ∧
      (react st u pid rt).2.reactions.length = st.reactions.length) ∧
    (∀ p q, atMostOneReaction st.reactions p q →
      atMostOneReaction (react st u pid rt).2.reactions p q) := by
  refine ⟨?_, ?_, ?_, ?_⟩
  · intro h
    have hr : react st u pid rt =
        (ReactRes.created,
          { st with
              reactions := st.reactions ++
                [{ id := st.nextId, post := pid, user := u.id, reaction_type := rt }],
              nextId := st.nextId + 1 }) := by
      simp [react, hp, hpub, hen, hdel, h]
    rw [hr]
    exact ⟨rfl,
      ⟨{ id := st.nextId, post := pid, user := u.id, reaction_type := rt },
        by simp, rfl, rfl, rfl⟩⟩
  · intro ex hex hty hone
    have hbeq : (ex.reaction_type == rt) = true := by simp [hty]
    have hr : react st u pid rt =
        (ReactRes.removed,
          { st with reactions := st.reactions.filter (fun r => !(r.id == ex.id)) }) := by
      simp [react, hp, hpub, hen, hdel, hex, hbeq]
    rw [hr]
    refine ⟨rfl, ?_⟩
    have hx : st.reactions.find? (fun r => r.post == pid && r.user == u.id) =
        some ex := hex
    have hmemx : ex ∈ st.reactions := List.mem_of_find?_eq_some hx
    have hkeyx : (ex.post == pid && ex.user == u.id) = true := by
      simpa using List.find?_some hx
    rw [List.filter_eq_nil_iff]
    intro r hr2 hkey
    have hr' : r ∈ st.reactions := (List.mem_filter.mp hr2).1
    have hid : (!(r.id == ex.id)) = true := (List.mem_filter.mp hr2).2
    have hrf : r ∈ st.reactions.filter (fun x => x.post == pid && x.user == u.id) :=
      List.mem_filter.mpr ⟨hr', hkey⟩
    have hexf : ex ∈ st.reactions.filter (fun x => x.post == pid && x.user == u.id) :=
      List.mem_filter.mpr ⟨hmemx, hkeyx⟩
    have hreq : r = ex := by
      by_contra hne
      unfold atMostOneReaction at hone
      rcases hl : st.reactions.filter (fun x => x.post == pid && x.user == u.id) with
        _ | ⟨a, _ | ⟨b, t⟩⟩
      · rw [hl] at hrf; simp at hrf
      · rw [hl] at hrf hexf
        simp only [List.mem_singleton] at hrf hexf
        exact hne (hrf.trans hexf.symm)
      · rw [hl] at hone; simp at hone
    rw [hreq] at hid
    simp at hid
  · intro ex hex hty
    have hbeq : (ex.reaction_type == rt) = false := by
      cases hb : (ex.reaction_type == rt)
      · rfl
      · exact absurd (by simpa using hb) hty
    have hr : react st u pid rt =
        (ReactRes.updated,
          { st with reactions :=
              st.reactions.map (fun r =>
                if r.id == ex.id then { r with reaction_type := rt } else r) }) := by
      simp [react, hp, hpub, hen, hdel, hex, hbeq]
    rw [hr]
    refine ⟨rfl, ?_, by simp⟩
    have hx : st.reactions.find? (fun r => r.post == pid && r.user == u.id) =
        some ex := hex
    have hmemx : ex ∈ st.reactions := List.mem_of_find?_eq_some hx
    have hkeyx : (ex.post == pid && ex.user == u.id) = true := by
      simpa using List.find?_some hx
    simp only [Bool.and_eq_true, beq_iff_eq] at hkeyx
    refine ⟨{ ex with reaction_type := rt }, ?_, hkeyx.1, hkeyx.2, rfl⟩
    have himg :
        (if ex.id == ex.id then { ex with reaction_type := rt } else ex)
          ∈ st.reactions.map (fun r =>
              if r.id == ex.id then { r with reaction_type := rt } else r) :=
      List.mem_map_of_mem _ hmemx
    simpa using himg
  · intro p q hone
    unfold atMostOneReaction at hone ⊢
    rcases hfind : findReaction st pid u.id with _ | ex
    · have hr : react st u pid rt =
          (ReactRes.created,
            { st with
                reactions := st.reactions ++
                  [{ id := st.nextId, post := pid, user := u.id, reaction_type := rt }],
                nextId := st.nextId + 1 }) := by
        simp [react, hp, hpub, hen, hdel, hfind]
      rw [hr]
      simp only [List.filter_append, List.length_append]
      by_cases hkey : ((pid == p && u.id == q) : Bool) = true
      · simp only [Bool.and_eq_true, beq_iff_eq] at hkey
        obtain ⟨hkp, hkq⟩ := hkey
        subst hkp; subst hkq
        have hnil := filter_of_find?_eq_none _ _ hfind
        unfold findReaction at hfind
        simp [filter_of_find?_eq_none _ _ hfind, List.filter_cons]
      · have hknew :
            (({ id := st.nextId, post := pid, user := u.id, reaction_type := rt } :
                Reaction).post == p &&
              ({ id := st.nextId, post := pid, user := u.id, reaction_type := rt } :
                Reaction).user == q) = false := by
          cases hb : ((pid == p && u.id == q) : Bool)
          · simp [hb]
          · exact absurd hb hkey
        rw [List.filter_cons]
        simp only [hknew, if_false]
        simpa using hone
    · by_cases hty : (ex.reaction_type == rt) = true
      · have hr : react st u pid rt =
            (ReactRes.removed,
              { st with reactions :=
                  st.reactions.filter (fun r => !(r.id == ex.id)) }) := by
          simp [react, hp, hpub, hen, hdel, hfind, hty]
        rw [hr]
        calc ((st.reactions.filter (fun r => !(r.id == ex.id))).filter
                (fun r => r.post == p && r.user == q)).length
            ≤ (st.reactions.filter (fun r => r.post == p && r.user == q)).length :=
              length_filter_filter_le _ _ _
          _ ≤ 1 := hone
      · have hbeq : (ex.reaction_type == rt) = false := by
          cases hb : (ex.reaction_type == rt)
          · rfl
          · exact absurd hb hty
        have hr : react st u pid rt =
            (ReactRes.updated,
              { st with reactions :=
                  st.reactions.map (fun r =>
                    if r.id == ex.id then { r with reaction_type := rt } else r) }) := by
          simp [react, hp, hpub, hen, hdel, hfind, hbeq]
        rw [hr]
        rw [length_filter_map_eq]
        · exact hone
        · intro a
          by_cases hid : (a.id == ex.id) = true <;> simp [hid]

/-- Witness for C6 at a concrete state: one published post with reactions
enabled, an empty reaction table, and a member reacting with LIKE. -/
theorem reaction_toggle_cycle_witness :
    findPost stPostOnly 1 = some post1 ∧
    (findReaction stPostOnly 1 7 = none →
      (react stPostOnly { id := 7, role := Role.MEMBER } 1 RType.LIKE).1 =
        ReactRes.created ∧
      ∃ r ∈ (react stPostOnly { id := 7, role := Role.MEMBER } 1
          RType.LIKE).2.reactions,
        r.post = 1 ∧ r.user = 7 ∧ r.reaction_type = RType.LIKE) := by
  constructor
  · rfl
  · exact (reaction_toggle_cycle stPostOnly { id := 7, role := Role.MEMBER } 1
      RType.LIKE post1 rfl rfl rfl rfl).1

/-! ## C7: gated writes -/

/-- C7 counterexample: comment creation on a post with
`comments_enabled=false` answers 403, not the claimed 400 business-rule
status (the repository's own test
`test_create_comment_when_disabled` asserts 403 as well). -/
theorem comment_gate_status_counterexample :
    create_comment stPost2 { id := 7, role := Role.MEMBER } 2 "hello" false 0 =
      (403, stPost2) ∧ (403 : Nat) ≠ 400 := by
  constructor
  · rfl
  · decide

/-- C7 (amended): `react` on an unpublished, reactions-disabled, or deleted
post fails with a 400 business-rule error and leaves the state unchanged
(zero rows created); comment creation on a post with
`comments_enabled=false` fails with 403 — not 400 — before any write,
likewise leaving the state unchanged. -/
theorem gated_writes_no_state_change (st : St) (u : User) (pid : Nat)
    (rt : RType) (post : Post) (content : String) (isQ : Bool) (now : Nat)
    (hp : findPost st pid = some post) :
    (post.is_published = false ∨ post.reactions_enabled = false ∨
        post.is_deleted = true →
      react st u pid rt = (ReactRes.error 400, st)) ∧
    (post.comments_enabled = false →
      create_comment st u pid content isQ now = (403, st)) := by
  constructor
  · intro h
    rcases h with h | h | h
    · simp [react, hp, h]
    · by_cases hpub : post.is_published = true
      · simp [react, hp, hpub, h]
      · have hpub' : post.is_published = false := by
          revert hpub; cases post.is_published <;> simp
        simp [react, hp, hpub']
    · by_cases hpub : post.is_published = true
      · by_cases hen : post.reactions_enabled = true
        · simp [react, hp, hpub, hen, h]
        · have hen' : post.reactions_enabled = false := by
            revert hen; cases post.reactions_enabled <;> simp
          simp [react, hp, hpub, hen']
      · have hpub' : post.is_published = false := by
          revert hpub; cases post.is_published <;> simp
        simp [react, hp, hpub']
  · intro h
    simp [create_comment, hp, h]

/-- Witness for the C7 amended theorem at a concrete state: `post2` has
reactions and comments disabled. -/
theorem gated_writes_no_state_change_witness :
    findPost stPost2 2 = some post2 ∧
    (post2.is_published = false ∨ post2.reactions_enabled = false ∨
        post2.is_deleted = true →
      react stPost2 { id := 7, role := Role.MEMBER } 2 RType.LIKE =
        (ReactRes.error 400, stPost2)) ∧
    (post2.comments_enabled = false →
      create_comment stPost2 { id := 7, role := Role.MEMBER } 2 "hi" false 0 =
        (403, stPost2)) :=
  ⟨rfl,
    (gated_writes_no_state_change stPost2 { id := 7, role := Role.MEMBER } 2
      RType.LIKE post2 "hi" false 0 rfl).1,
    (gated_writes_no_state_change stPost2 { id := 7, role := Role.MEMBER } 2
      RType.LIKE post2 "hi" false 0 rfl).2⟩

/-! ## C2: moderator answer scope -/

/-- C2 counterexample: on the comment-reply path, a MODERATOR (id 3) who is
not the author of post 1 (author id 1) replies to the question comment of
member 2; the request succeeds with 201 — not 403 — and marks the question
ANSWERED by the moderator, so the scope rule does not hold on every path
that marks a question ANSWERED. -/
theorem moderator_reply_no_scope_counterexample :
    post1.author_id ≠ 3 ∧
    (reply stQI { id := 3, role := Role.MODERATOR } 20 "a" false 5).1 = 201 ∧
    ∃ c ∈ (reply stQI { id := 3, role := Role.MODERATOR } 20 "a" false
        5).2.comments,
      c.id = 20 ∧ c.question_status = QStatus.ANSWERED ∧
      c.answered_by = some 3 := by
  refine ⟨by decide, by decide, by decide⟩

/-- C2 (amended): the moderator scope rule is enforced on the respond
endpoint only: there a MODERATOR who did not author the question's post
receives 403 with no side effects, a MODERATOR responding on their own post
succeeds (200), and ADMIN passes the response-permission check for any
question; the comment-reply path performs no such check. -/
theorem moderator_answer_scope (st : St) (u : User) (iid : Nat)
    (inter : Interaction) (post : Post) (content : String) (now : Nat)
    (hfind : findInteractionFor st u iid = some inter)
    (hq : inter.is_question = true)
    (hpost : findPost st inter.post = some post) :
    (u.role = Role.MODERATOR → post.author_id ≠ u.id →
      respond st u iid content now = (403, st)) ∧
    (u.role = Role.MODERATOR → post.author_id = u.id → strip content ≠ "" →
      (respond st u iid content now).1 = 200) ∧
    (u.role = Role.ADMIN →
      check_response_permission u inter post.author_id = true) := by
  refine ⟨?_, ?_, ?_⟩
  · intro hrole hne
    have h1 : (u.role == Role.ADMIN) = false := by rw [hrole]; rfl
    have h2 : (u.role == Role.MODERATOR) = true := by rw [hrole]; rfl
    have h3 : (post.author_id == u.id) = false := by
      cases hb : post.author_id == u.id
      · rfl
      · exact absurd (by simpa using hb) hne
    have hperm : check_response_permission u inter post.author_id = false := by
      unfold check_response_permission
      rw [h1, h2]
      simp [h3]
    simp [respond, hfind, hq, hpost, hperm]
  · intro hrole heq hcne
    have h1 : (u.role == Role.ADMIN) = false := by rw [hrole]; rfl
    have h2 : (u.role == Role.MODERATOR) = true := by rw [hrole]; rfl
    have h3 : (post.author_id == u.id) = true := by rw [heq]; simp
    have hperm : check_response_permission u inter post.author_id = true := by
      unfold check_response_permission
      rw [h1, h2]
      simp [h3, hq]
    have hc : (strip content == "") = false := by
      cases hb : strip content == ""
      · rfl
      · exact absurd (by simpa using hb) hcne
    simp [respond, hfind, hq, hpost, hperm, hc]
  · intro hrole
    unfold check_response_permission
    rw [hrole]
    simp

/-- Witness for the C2 amended theorem: moderator 3 on the question
interaction of member 2 on post 1 (authored by user 1). -/
theorem moderator_answer_scope_witness :
    findInteractionFor stQI { id := 3, role := Role.MODERATOR } 30 =
      some qInteraction ∧
    qInteraction.is_question = true ∧
    findPost stQI qInteraction.post = some post1 ∧
    (({ id := 3, role := Role.MODERATOR } : User).role = Role.MODERATOR →
      post1.author_id ≠ ({ id := 3, role := Role.MODERATOR } : User).id →
      respond stQI { id := 3, role := Role.MODERATOR } 30 "a" 5 = (403, stQI)) := by
  refine ⟨by decide, rfl, rfl, ?_⟩
  exact (moderator_answer_scope stQI { id := 3, role := Role.MODERATOR } 30
    qInteraction post1 "a" 5 (by decide) rfl rfl).1

/-! ## C9: is CLOSED terminal? -/

/-- C9 counterexample: the respond endpoint does not guard on CLOSED — an
ADMIN responding to the CLOSED question interaction succeeds (200) and moves
its status to ANSWERED, a transition out of CLOSED. -/
theorem closed_not_terminal_counterexample :
    closedQInteraction.status = IStatus.CLOSED ∧
    (respond stClosed { id := 9, role := Role.ADMIN } 31 "a" 5).1 = 200 ∧
    ∃ i ∈ (respond stClosed { id := 9, role := Role.ADMIN } 31 "a"
        5).2.interactions,
      i.id = 31 ∧ i.status = IStatus.ANSWERED := by
  refine ⟨rfl, by decide, by decide⟩

/-- C9 (amended): the close action does set the status to CLOSED (for a
permitted actor), but CLOSED is not terminal: no operation guards on it, and
a permitted respond on a CLOSED question moves the status to ANSWERED. -/
theorem closed_status_transitions (st : St) (u : User) (iid : Nat)
    (inter : Interaction) (post : Post) (content : String) (now : Nat)
    (hfind : findInteractionFor st u iid = some inter)
    (hpost : findPost st inter.post = some post)
    (hperm : check_response_permission u inter post.author_id = true) :
    ((close st u iid).1 = 200 ∧
      ∃ i ∈ (close st u iid).2.interactions,
        i.id = inter.id ∧ i.status = IStatus.CLOSED) ∧
    (inter.is_question = true → inter.status = IStatus.CLOSED →
      strip content ≠ "" →
      (respond st u iid content now).1 = 200 ∧
      ∃ i ∈ (respond st u iid content now).2.interactions,
        i.id = inter.id ∧ i.status = IStatus.ANSWERED) := by
  have hmem : inter ∈ st.interactions := by
    have h1 : inter ∈ st.interactions.filter (fun i =>
        !i.is_deleted &&
          (if u.role == Role.ADMIN || u.role == Role.MODERATOR then true
           else i.user == u.id)) := List.mem_of_find?_eq_some hfind
    exact (List.mem_filter.mp h1).1
  constructor
  · simp only [close, hfind, hpost, hperm, Bool.not_true, Bool.false_eq_true,
      if_false, ite_false]
    refine ⟨trivial, { inter with status := IStatus.CLOSED }, ?_, rfl, rfl⟩
    have himg :
        (if inter.id == inter.id then { inter with status := IStatus.CLOSED }
          else inter) ∈ st.interactions.map (fun i =>
            if i.id == inter.id then { i with status := IStatus.CLOSED } else i) :=
      List.mem_map_of_mem _ hmem
    simpa using himg
  · intro hq hcl hcne
    have hc : (strip content == "") = false := by
      cases hb : strip content == ""
      · rfl
      · exact absurd (by simpa using hb) hcne
    simp only [respond, hfind, hq, hpost, hperm, hc, Bool.not_true,
      Bool.false_eq_true, if_false, ite_false]
    refine ⟨trivial, ?_⟩
    refine ⟨markAnswered inter u.id now, ?_, ?_, ?_⟩
    · rcases hoc : ((({ st with
          interactions := st.interactions ++
            [mkReplyInteraction st.nextId inter.post u.id inter.id
              (strip content)],
          nextId := st.nextId + 1 } : St)).comments.find?
            (commentMatches inter.post inter.user inter.content true)) with _ | oc
      · simp only [hoc]
        have hmem1 : inter ∈ st.interactions ++
            [mkReplyInteraction st.nextId inter.post u.id inter.id
              (strip content)] := List.mem_append_left _ hmem
        have himg := List.mem_map_of_mem (fun i =>
            if i.id == inter.id then markAnswered i u.id now else i) hmem1
        simpa using himg
      · simp only [hoc]
        have hmem1 : inter ∈ st.interactions ++
            [mkReplyInteraction st.nextId inter.post u.id inter.id
              (strip content)] := List.mem_append_left _ hmem
        have himg := List.mem_map_of_mem (fun i =>
            if i.id == inter.id then markAnswered i u.id now else i) hmem1
        simpa using himg
    · simp [markAnswered, hq]
    · simp [markAnswered, hq]

/-- Witness for the C9 amended theorem: ADMIN 9 on the CLOSED question
interaction 31. -/
theorem closed_status_transitions_witness :
    findInteractionFor stClosed { id := 9, role := Role.ADMIN } 31 =
      some closedQInteraction ∧
    findPost stClosed closedQInteraction.post = some post1 ∧
    check_response_permission { id := 9, role := Role.ADMIN }
      closedQInteraction post1.author_id = true ∧
    ((close stClosed { id := 9, role := Role.ADMIN } 31).1 = 200 ∧
      ∃ i ∈ (close stClosed { id := 9, role := Role.ADMIN } 31).2.interactions,
        i.id = closedQInteraction.id ∧ i.status = IStatus.CLOSED) := by
  refine ⟨by decide, rfl, rfl, ?_⟩
  exact (closed_status_transitions stClosed { id := 9, role := Role.ADMIN } 31
    closedQInteraction post1 "a" 5 (by decide) rfl rfl).1

/-! ## C1: dual-representation answer synchronization -/

/-- C1 counterexample: when no Comment matches the correlation key, an ADMIN
respond still succeeds (200) and marks the question Interaction ANSWERED
while the Comment table stays empty — the two updates do not happen together
or neither, and afterwards an ANSWERED question Interaction has no Comment
with matching key and `question_status == ANSWERED`. -/
theorem answer_sync_counterexample :
    (respond stInteractionOnly { id := 9, role := Role.ADMIN } 30 "a" 5).1 =
      200 ∧
    (∃ i ∈ (respond stInteractionOnly { id := 9, role := Role.ADMIN } 30 "a"
        5).2.interactions,
      i.is_question = true ∧ i.status = IStatus.ANSWERED) ∧
    (respond stInteractionOnly { id := 9, role := Role.ADMIN } 30 "a"
        5).2.comments = [] := by
  refine ⟨by decide, by decide, by decide⟩

/-- C1 (amended): on both answer paths the dual-representation sync is
conditional on the correlation lookup.  Respond endpoint: when an ADMIN
responds to an OPEN question Interaction and a Comment matching the
(post, user, content, is_question) correlation key exists, the request
succeeds and in the resulting state the matched Comment has
`question_status = ANSWERED` with `answered_by` the responder while the
Interaction has status ANSWERED with the same responder (both updates land
in the same state); when no matching Comment exists, only the Interaction
side is marked ANSWERED and the Comment table is left unchanged.
Comment-reply path: when an ADMIN posts a (non-question) reply to an OPEN
question Comment, the request succeeds, the question Comment becomes
ANSWERED with `answered_by` the responder, and every Interaction matching
the correlation key reaches ANSWERED with the same responder in the same
resulting state; when no Interaction matches, only the Comment side is
marked ANSWERED and the Interaction table is left unchanged.  The standing
invariant therefore holds only when the correlation finds its counterpart. -/
theorem answer_sync_when_correlated (st : St) (u : User)
    (hrole : u.role = Role.ADMIN) :
    (∀ iid inter post content now,
      findInteractionFor st u iid = some inter →
      inter.is_question = true →
      inter.status = IStatus.OPEN →
      findPost st inter.post = some post →
      strip content ≠ "" →
      (∀ oc, st.comments.find?
          (commentMatches inter.post inter.user inter.content true) =
            some oc →
        (respond st u iid content now).1 = 200 ∧
        (∃ c ∈ (respond st u iid content now).2.comments,
          commentMatches inter.post inter.user inter.content true c = true ∧
          c.question_status = QStatus.ANSWERED ∧ c.answered_by = some u.id) ∧
        (∃ i ∈ (respond st u iid content now).2.interactions,
          i.id = inter.id ∧ i.status = IStatus.ANSWERED ∧
          i.responded_by = some u.id)) ∧
      (st.comments.find?
          (commentMatches inter.post inter.user inter.content true) = none →
        (respond st u iid content now).1 = 200 ∧
        (respond st u iid content now).2.comments = st.comments ∧
        (∃ i ∈ (respond st u iid content now).2.interactions,
          i.id = inter.id ∧ i.status = IStatus.ANSWERED ∧
          i.responded_by = some u.id))) ∧
    (∀ pid parent post content now,
      findReplyParent st u pid = some parent →
      parent.is_question = true →
      parent.question_status = QStatus.OPEN →
      findPost st parent.post = some post →
      post.comments_enabled = true →
      commentDataValid content post (some parent) = true →
      (reply st u pid content false now).1 = 201 ∧
      (∃ c ∈ (reply st u pid content false now).2.comments,
        c.id = parent.id ∧ c.question_status = QStatus.ANSWERED ∧
        c.answered_by = some u.id ∧ c.answered_at = some now) ∧
      (∀ i ∈ st.interactions,
        interactionMatches parent.post parent.user parent.content true i =
          true →
        { i with
          status := IStatus.ANSWERED
          responded_by := some u.id
          responded_at := some now } ∈
          (reply st u pid content false now).2.interactions) ∧
      (st.interactions.find?
          (interactionMatches parent.post parent.user parent.content true) =
            none →
        (reply st u pid content false now).2.interactions =
          st.interactions)) := by
  constructor
  · intro iid inter post content now hfind hq _hst hpost hcne
    have hperm : check_response_permission u inter post.author_id = true := by
      unfold check_response_permission
      rw [hrole]
      simp
    have hc : (strip content == "") = false := by
      cases hb : strip content == ""
      · rfl
      · exact absurd (by simpa using hb) hcne
    have hmem : inter ∈ st.interactions := by
      have h1 : inter ∈ st.interactions.filter (fun i =>
          !i.is_deleted &&
            (if u.role == Role.ADMIN || u.role == Role.MODERATOR then true
             else i.user == u.id)) := List.mem_of_find?_eq_some hfind
      exact (List.mem_filter.mp h1).1
    constructor
    · intro oc hoc
      have hocmem : oc ∈ st.comments := List.mem_of_find?_eq_some hoc
      have hocmatch :
          commentMatches inter.post inter.user inter.content true oc =
            true := by
        simpa using List.find?_some hoc
      simp only [respond, hfind, hq, hpost, hperm, hc, Bool.not_true,
        Bool.false_eq_true, if_false, ite_false, hoc]
      refine ⟨trivial, ?_, ?_⟩
      · refine ⟨{ oc with
            question_status := QStatus.ANSWERED,
            answered_by := some u.id,
            answered_at := some now }, ?_, ?_, rfl, rfl⟩
        · have hmem1 : oc ∈ st.comments ++
              [mkComment (st.nextId + 1) inter.post u.id (strip content)
                (some oc.id) false now] := List.mem_append_left _ hocmem
          have himg := List.mem_map_of_mem (fun c =>
              if c.id == oc.id then
                { c with
                  question_status := QStatus.ANSWERED,
                  answered_by := some u.id,
                  answered_at := some now }
              else c) hmem1
          simpa using himg
        · exact hocmatch
      · refine ⟨markAnswered inter u.id now, ?_, ?_, ?_⟩
        · have hmem1 : inter ∈ st.interactions ++
              [mkReplyInteraction st.nextId inter.post u.id inter.id
                (strip content)] := List.mem_append_left _ hmem
          have himg := List.mem_map_of_mem (fun i =>
              if i.id == inter.id then markAnswered i u.id now else i) hmem1
          simpa using himg
        · simp [markAnswered, hq]
        · simp [markAnswered, hq]
    · intro hoc
      simp only [respond, hfind, hq, hpost, hperm, hc, Bool.not_true,
        Bool.false_eq_true, if_false, ite_false, hoc]
      refine ⟨trivial, trivial, ?_⟩
      refine ⟨markAnswered inter u.id now, ?_, ?_, ?_⟩
      · have hmem1 : inter ∈ st.interactions ++
            [mkReplyInteraction st.nextId inter.post u.id inter.id
              (strip content)] := List.mem_append_left _ hmem
        have himg := List.mem_map_of_mem (fun i =>
            if i.id == inter.id then markAnswered i u.id now else i) hmem1
        simpa using himg
      · simp [markAnswered, hq]
      · simp [markAnswered, hq]
  · intro pid parent post content now hpar hpq _hqs hpost hce hvalid
    have hpmem : parent ∈ st.comments := by
      have h1 : parent ∈ st.comments.filter (fun c =>
          if u.role == Role.ADMIN || u.role == Role.MODERATOR then true
          else !(c.is_question && !(c.user == u.id))) :=
        List.mem_of_find?_eq_some hpar
      exact (List.mem_filter.mp h1).1
    have hradm : (u.role == Role.ADMIN) = true := by rw [hrole]; rfl
    simp only [reply, hpar, hpost, hce, hvalid, hpq, hradm, Bool.false_and,
      Bool.and_false, Bool.false_eq_true, if_false, ite_false, Bool.true_and,
      Bool.and_true, Bool.true_or, Bool.or_true, Bool.and_self, ite_true,
      Bool.not_true, Bool.not_false]
    refine ⟨trivial, ?_, ?_, ?_⟩
    · refine ⟨{ parent with
          question_status := QStatus.ANSWERED,
          answered_by := some u.id,
          answered_at := some now }, ?_, rfl, rfl, rfl, rfl⟩
      have hmem1 : parent ∈ st.comments ++
          [mkComment st.nextId parent.post u.id (strip content) (some pid)
            false now] := List.mem_append_left _ hpmem
      have himg := List.mem_map_of_mem (fun c2 =>
          if c2.id == parent.id then
            { c2 with
              question_status := QStatus.ANSWERED,
              answered_by := some u.id,
              answered_at := some now }
          else c2) hmem1
      simpa using himg
    · intro i hi hm
      have himg := List.mem_map_of_mem (fun i2 =>
          if interactionMatches parent.post parent.user parent.content
              true i2 then
            { i2 with
              status := IStatus.ANSWERED,
              responded_by := some u.id,
              responded_at := some now }
          else i2) hi
      simpa [hm] using himg
    · intro hnone
      have hall : ∀ i ∈ st.interactions,
          interactionMatches parent.post parent.user parent.content true i =
            false := by
        intro i hi
        cases hb : interactionMatches parent.post parent.user parent.content
            true i
        · rfl
        · exact absurd hb (List.find?_eq_none.mp hnone i hi)
      exact map_ite_id_of_forall_false _ _ _ hall

/-- Witness for the C1 amended theorem: ADMIN 9 on `stQI`, where the
correlated Comment (id 20) and Interaction (id 30) both exist — the
respond-endpoint hit case and the comment-reply answer case. -/
theorem answer_sync_when_correlated_witness :
    ({ id := 9, role := Role.ADMIN } : User).role = Role.ADMIN ∧
    findInteractionFor stQI { id := 9, role := Role.ADMIN } 30 =
      some qInteraction ∧
    qInteraction.is_question = true ∧
    qInteraction.status = IStatus.OPEN ∧
    findPost stQI qInteraction.post = some post1 ∧
    strip "a" ≠ "" ∧
    (∀ oc, stQI.comments.find? (commentMatches qInteraction.post
        qInteraction.user qInteraction.content true) = some oc →
      (respond stQI { id := 9, role := Role.ADMIN } 30 "a" 5).1 = 200 ∧
      (∃ c ∈ (respond stQI { id := 9, role := Role.ADMIN } 30 "a"
          5).2.comments,
        commentMatches qInteraction.post qInteraction.user qInteraction.content
          true c = true ∧
        c.question_status = QStatus.ANSWERED ∧ c.answered_by = some 9) ∧
      (∃ i ∈ (respond stQI { id := 9, role := Role.ADMIN } 30 "a"
          5).2.interactions,
        i.id = qInteraction.id ∧ i.status = IStatus.ANSWERED ∧
        i.responded_by = some 9)) ∧
    findReplyParent stQI { id := 9, role := Role.ADMIN } 20 = some qComment ∧
    qComment.is_question = true ∧
    qComment.question_status = QStatus.OPEN ∧
    findPost stQI qComment.post = some post1 ∧
    post1.comments_enabled = true ∧
    commentDataValid "a" post1 (some qComment) = true ∧
    ((reply stQI { id := 9, role := Role.ADMIN } 20 "a" false 5).1 = 201 ∧
      (∃ c ∈ (reply stQI { id := 9, role := Role.ADMIN } 20 "a" false
          5).2.comments,
        c.id = qComment.id ∧ c.question_status = QStatus.ANSWERED ∧
        c.answered_by = some 9 ∧ c.answered_at = some 5) ∧
      (∀ i ∈ stQI.interactions,
        interactionMatches qComment.post qComment.user qComment.content true
          i = true →
        { i with
          status := IStatus.ANSWERED
          responded_by := some 9
          responded_at := some 5 } ∈
          (reply stQI { id := 9, role := Role.ADMIN } 20 "a" false
            5).2.interactions) ∧
      (stQI.interactions.find? (interactionMatches qComment.post qComment.user
          qComment.content true) = none →
        (reply stQI { id := 9, role := Role.ADMIN } 20 "a" false
          5).2.interactions = stQI.interactions)) := by
  refine ⟨rfl, by decide, rfl, rfl, rfl, by decide, ?_, by decide, rfl, rfl,
    rfl, rfl, by decide, ?_⟩
  · exact ((answer_sync_when_correlated stQI { id := 9, role := Role.ADMIN }
      rfl).1 30 qInteraction post1 "a" 5 (by decide) rfl rfl rfl
      (by decide)).1
  · exact (answer_sync_when_correlated stQI { id := 9, role := Role.ADMIN }
      rfl).2 20 qComment post1 "a" 5 (by decide) rfl rfl rfl rfl (by decide)

/-! ## C8: correlation-miss fallback -/

/-- C8 counterexample: the admin hide action on the question interaction in
a state with no matching Comment succeeds (200) — the miss is not surfaced —
but no Comment record is created in the representation where the match was
missing, so the fallback-create policy does not hold for the hide mirror. -/
theorem correlation_miss_no_fallback_counterexample :
    (hide stInteractionOnly { id := 9, role := Role.ADMIN } 30).1 = 200 ∧
    (hide stInteractionOnly { id := 9, role := Role.ADMIN } 30).2.comments =
      [] := by
  refine ⟨by decide, by decide⟩

/-- C8 (amended): a correlation miss never fails the request, but the
fallback-create applies only on the follow-up path: a permitted respond whose
Comment lookup misses answers 200 and leaves the Comment table unchanged; an
admin hide whose Comment lookup matches nothing answers 200 and leaves the
Comment table unchanged; a member's follow-up question reply whose
Interaction lookup misses answers 201 and appends a fresh OPEN question
Interaction carrying the reply's content. -/
theorem correlation_miss_fallback (st : St) (u : User) :
    (∀ iid inter post content now,
      findInteractionFor st u iid = some inter →
      inter.is_question = true →
      findPost st inter.post = some post →
      check_response_permission u inter post.author_id = true →
      strip content ≠ "" →
      st.comments.find?
        (commentMatches inter.post inter.user inter.content true) = none →
      (respond st u iid content now).1 = 200 ∧
      (respond st u iid content now).2.comments = st.comments) ∧
    (∀ iid inter,
      u.role = Role.ADMIN →
      findInteractionFor st u iid = some inter →
      st.comments.find?
        (commentMatches inter.post inter.user inter.content true) = none →
      (hide st u iid).1 = 200 ∧
      (hide st u iid).2.comments = st.comments) ∧
    (∀ pid parent post content now,
      u.role = Role.MEMBER →
      findReplyParent st u pid = some parent →
      findPost st parent.post = some post →
      post.comments_enabled = true →
      commentDataValid content post (some parent) = true →
      parent.is_question = true →
      parent.user = u.id →
      st.interactions.find?
        (interactionMatches parent.post parent.user parent.content true) =
          none →
      (reply st u pid content true now).1 = 201 ∧
      (reply st u pid content true now).2.interactions.length =
        st.interactions.length + 1 ∧
      ∃ i ∈ (reply st u pid content true now).2.interactions,
        i.type = IType.QUESTION ∧ i.is_question = true ∧
        i.status = IStatus.OPEN ∧ i.content = strip content ∧
        i.post = parent.post ∧ i.user = u.id) := by
  refine ⟨?_, ?_, ?_⟩
  · intro iid inter post content now hfind hq hpost hperm hcne hmiss
    have hc : (strip content == "") = false := by
      cases hb : strip content == ""
      · rfl
      · exact absurd (by simpa using hb) hcne
    simp only [respond, hfind, hq, hpost, hperm, hc, Bool.not_true,
      Bool.false_eq_true, if_false, ite_false, hmiss]
    exact ⟨trivial, trivial⟩
  · intro iid inter hrole hfind hmiss
    have h1 : (u.role == Role.ADMIN) = true := by rw [hrole]; rfl
    simp only [hide, h1, Bool.not_true, Bool.false_eq_true, if_false,
      ite_false, hfind]
    refine ⟨trivial, ?_⟩
    have hall : ∀ c ∈ st.comments,
        commentMatches inter.post inter.user inter.content true c = false := by
      intro c hcm
      cases hb : commentMatches inter.post inter.user inter.content true c
      · rfl
      · exact absurd hb (List.find?_eq_none.mp hmiss c hcm)
    exact map_ite_id_of_forall_false _ _ _ hall
  · intro pid parent post content now hrole hpar hpost hce hvalid hpq hpu hmiss
    have h1 : (u.role == Role.ADMIN) = false := by rw [hrole]; rfl
    have h2 : (u.role == Role.MODERATOR) = false := by rw [hrole]; rfl
    have h3 : (parent.user == u.id) = true := by rw [hpu]; simp
    simp only [reply, hpar, hpost, hce, hvalid, hpq, h1, h2, h3, hmiss,
      Bool.not_true, Bool.false_eq_true, if_false, ite_false, ite_true,
      Bool.and_self, Bool.and_true, Bool.true_and, Bool.or_self,
      Bool.false_and, Bool.and_false, Bool.false_or, Bool.or_false]
    refine ⟨trivial, by simp, ?_⟩
    refine ⟨mkQuestionInteraction (st.nextId + 1) parent.post u.id
      (strip content), ?_, rfl, rfl, rfl, rfl, rfl, rfl⟩
    simp [mkQuestionInteraction, mkComment]

/-- Witness for the C8 amended theorem: the hide-miss component on the
state with an interaction and no comments. -/
theorem correlation_miss_fallback_witness :
    ({ id := 9, role := Role.ADMIN } : User).role = Role.ADMIN ∧
    findInteractionFor stInteractionOnly { id := 9, role := Role.ADMIN } 30 =
      some qInteraction ∧
    stInteractionOnly.comments.find? (commentMatches qInteraction.post
      qInteraction.user qInteraction.content true) = none ∧
    ((hide stInteractionOnly { id := 9, role := Role.ADMIN } 30).1 = 200 ∧
      (hide stInteractionOnly { id := 9, role := Role.ADMIN } 30).2.comments =
        stInteractionOnly.comments) := by
  refine ⟨rfl, by decide, rfl, ?_⟩
  exact (correlation_miss_fallback stInteractionOnly
    { id := 9, role := Role.ADMIN }).2.1 30 qInteraction rfl (by decide) rfl

/-! ## C3: reopen on follow-up -/

/-- C3 counterexample: when the original asker is an ADMIN (user 9), their
follow-up question reply first reopens their ANSWERED question but the
subsequent answer block (any ADMIN/MODERATOR reply to a question marks it
ANSWERED) immediately overrides it: the final question_status is ANSWERED
with answered_by = 9, not OPEN with cleared fields as the claim requires for
every user U. -/
theorem reopen_overridden_counterexample :
    adminQComment.user = 9 ∧
    (reply stAdminQ { id := 9, role := Role.ADMIN } 21 "f" true 5).1 = 201 ∧
    ∃ c ∈ (reply stAdminQ { id := 9, role := Role.ADMIN } 21 "f" true
        5).2.comments,
      c.id = 21 ∧ c.question_status = QStatus.ANSWERED ∧
      c.answered_by = some 9 := by
  refine ⟨rfl, by decide, by decide⟩

/-- C3 (amended): for a question Comment authored by a user whose role is
neither ADMIN nor MODERATOR, a follow-up question reply by that author
returns the parent Comment to OPEN with `answered_by`/`answered_at` cleared,
returns the correlated Interaction (found by the correlation key) to OPEN
with `responded_by`/`responded_at` cleared, creates no duplicate Interaction
(the table size is unchanged), and preserves the number of Interactions
matching the correlation key (so exactly one exists afterwards when exactly
one existed before). -/
theorem reopen_on_followup (st : St) (u : User) (pid : Nat) (parent : Comment)
    (post : Post) (content : String) (now : Nat) (orig : Interaction)
    (hr1 : (u.role == Role.ADMIN) = false)
    (hr2 : (u.role == Role.MODERATOR) = false)
    (hpar : findReplyParent st u pid = some parent)
    (hpq : parent.is_question = true)
    (hpu : parent.user = u.id)
    (hpost : findPost st parent.post = some post)
    (hce : post.comments_enabled = true)
    (hvalid : commentDataValid content post (some parent) = true)
    (hfound : st.interactions.find?
      (interactionMatches parent.post parent.user parent.content true) =
        some orig) :
    (reply st u pid content true now).1 = 201 ∧
    (∃ c ∈ (reply st u pid content true now).2.comments,
      c.id = parent.id ∧ c.question_status = QStatus.OPEN ∧
      c.answered_by = none ∧ c.answered_at = none) ∧
    (∃ i ∈ (reply st u pid content true now).2.interactions,
      i.id = orig.id ∧ i.status = IStatus.OPEN ∧
      i.responded_by = none ∧ i.responded_at = none) ∧
    (reply st u pid content true now).2.interactions.length =
      st.interactions.length ∧
    ((reply st u pid content true now).2.interactions.filter
        (interactionMatches parent.post parent.user parent.content
          true)).length =
      (st.interactions.filter
        (interactionMatches parent.post parent.user parent.content
          true)).length := by
  have hpmem : parent ∈ st.comments := by
    have h1 : parent ∈ st.comments.filter (fun c =>
        if u.role == Role.ADMIN || u.role == Role.MODERATOR then true
        else !(c.is_question && !(c.user == u.id))) :=
      List.mem_of_find?_eq_some hpar
    exact (List.mem_filter.mp h1).1
  have homem : orig ∈ st.interactions := List.mem_of_find?_eq_some hfound
  have h3 : (parent.user == u.id) = true := by rw [hpu]; simp
  simp only [reply, hpar, hpost, hce, hvalid, hpq, h3, hr1, hr2, hfound,
    Bool.not_true, Bool.false_eq_true, if_false, ite_false, ite_true,
    Bool.true_and, Bool.and_true, Bool.and_self, Bool.or_self, Bool.false_or,
    Bool.or_false, Bool.false_and, Bool.and_false]
  refine ⟨trivial, ?_, ?_, by simp, ?_⟩
  · refine ⟨{ parent with
        question_status := QStatus.OPEN,
        answered_by := none,
        answered_at := none }, ?_, rfl, rfl, rfl, rfl⟩
    have hmem1 : parent ∈ st.comments ++
        [mkComment st.nextId parent.post u.id (strip content) (some pid)
          true now] := List.mem_append_left _ hpmem
    have himg := List.mem_map_of_mem (fun c2 =>
        if c2.id == parent.id then
          { c2 with
            question_status := QStatus.OPEN,
            answered_by := none,
            answered_at := none }
        else c2) hmem1
    simpa using himg
  · refine ⟨{ orig with
        status := IStatus.OPEN,
        responded_by := none,
        responded_at := none }, ?_, rfl, rfl, rfl, rfl⟩
    have himg := List.mem_map_of_mem (fun i =>
        if i.id == orig.id then
          { i with
            status := IStatus.OPEN,
            responded_by := none,
            responded_at := none }
        else i) homem
    simpa using himg
  · rw [length_filter_map_eq]
    intro a
    by_cases haid : (a.id == orig.id) = true <;>
      simp [haid, interactionMatches]

/-- Witness for the C3 amended theorem: member 2 posts a follow-up question
on their answered question (comment 20 / interaction 30). -/
theorem reopen_on_followup_witness :
    (({ id := 2, role := Role.MEMBER } : User).role == Role.ADMIN) = false ∧
    (({ id := 2, role := Role.MEMBER } : User).role == Role.MODERATOR) =
      false ∧
    findReplyParent stMemberAnswered { id := 2, role := Role.MEMBER } 20 =
      some memberAnsweredQComment ∧
    memberAnsweredQComment.is_question = true ∧
    memberAnsweredQComment.user = 2 ∧
    findPost stMemberAnswered memberAnsweredQComment.post = some post1 ∧
    post1.comments_enabled = true ∧
    commentDataValid "f" post1 (some memberAnsweredQComment) = true ∧
    stMemberAnswered.interactions.find? (interactionMatches
      memberAnsweredQComment.post memberAnsweredQComment.user
      memberAnsweredQComment.content true) = some memberAnsweredQInteraction ∧
    ((reply stMemberAnswered { id := 2, role := Role.MEMBER } 20 "f" true
        5).1 = 201 ∧
      (∃ c ∈ (reply stMemberAnswered { id := 2, role := Role.MEMBER } 20 "f"
          true 5).2.comments,
        c.id = memberAnsweredQComment.id ∧
        c.question_status = QStatus.OPEN ∧
        c.answered_by = none ∧ c.answered_at = none) ∧
      (∃ i ∈ (reply stMemberAnswered { id := 2, role := Role.MEMBER } 20 "f"
          true 5).2.interactions,
        i.id = memberAnsweredQInteraction.id ∧ i.status = IStatus.OPEN ∧
        i.responded_by = none ∧ i.responded_at = none) ∧
      (reply stMemberAnswered { id := 2, role := Role.MEMBER } 20 "f" true
          5).2.interactions.length =
        stMemberAnswered.interactions.length ∧
      ((reply stMemberAnswered { id := 2, role := Role.MEMBER } 20 "f" true
          5).2.interactions.filter (interactionMatches
            memberAnsweredQComment.post memberAnsweredQComment.user
            memberAnsweredQComment.content true)).length =
      (stMemberAnswered.interactions.filter (interactionMatches
        memberAnsweredQComment.post memberAnsweredQComment.user
        memberAnsweredQComment.content true)).length) := by
  refine ⟨rfl, rfl, by decide, rfl, rfl, rfl, rfl, by decide, by decide, ?_⟩
  exact reopen_on_followup stMemberAnswered { id := 2, role := Role.MEMBER }
    20 memberAnsweredQComment post1 "f" 5 memberAnsweredQInteraction rfl rfl
    (by decide) rfl rfl rfl rfl (by decide) (by decide)

/-! ## C10: hide/unhide frame effects -/

/-- C10 counterexample: hiding the Interaction with `is_question = false`
(id 33) soft-deletes the question Comment (id 22) that shares its
(post, user, content) triple — the Comment-side mirror always filters with
`is_question=True`, not with the Interaction's own flag, so a non-question
hide can still soft-delete a Comment row. -/
theorem hide_nonquestion_counterexample :
    plainInteraction.is_question = false ∧
    ∃ c ∈ (hide stCollide { id := 9, role := Role.ADMIN } 33).2.comments,
      c.id = 22 ∧ c.is_question = true ∧ c.is_deleted = true := by
  refine ⟨rfl, by decide⟩

/-- C10 (amended): the Comment-side mirror of hide/unhide filters with
`is_question=True` fixed, regardless of the Interaction's own `is_question`:
every Comment with `is_question = false`, and every Comment not matching the
(post, user, content, True) key, is unchanged by hide and unhide; Comments
matching the key are soft-deleted by hide and restored by unhide; the
Interaction itself is hidden resp. unhidden.  (A non-question Interaction's
hide can therefore still soft-delete a question Comment sharing its
(post, user, content) triple.) -/
theorem hide_unhide_frame (st : St) (u : User) (iid : Nat)
    (inter : Interaction)
    (hrole : u.role = Role.ADMIN)
    (hfind : findInteractionFor st u iid = some inter) :
    ((hide st u iid).1 = 200 ∧
      (∃ i ∈ (hide st u iid).2.interactions,
        i.id = inter.id ∧ i.is_hidden = true) ∧
      (∀ c ∈ st.comments, c.is_question = false →
        c ∈ (hide st u iid).2.comments) ∧
      (∀ c ∈ st.comments,
        commentMatches inter.post inter.user inter.content true c = false →
        c ∈ (hide st u iid).2.comments) ∧
      (∀ c ∈ st.comments,
        commentMatches inter.post inter.user inter.content true c = true →
        { c with is_deleted := true } ∈ (hide st u iid).2.comments)) ∧
    ((unhide st u iid).1 = 200 ∧
      (∃ i ∈ (unhide st u iid).2.interactions,
        i.id = inter.id ∧ i.is_hidden = false) ∧
      (∀ c ∈ st.comments, c.is_question = false →
        c ∈ (unhide st u iid).2.comments) ∧
      (∀ c ∈ st.comments,
        commentMatches inter.post inter.user inter.content true c = false →
        c ∈ (unhide st u iid).2.comments) ∧
      (∀ c ∈ st.comments,
        commentMatches inter.post inter.user inter.content true c = true →
        { c with is_deleted := false } ∈ (unhide st u iid).2.comments)) := by
  have h1 : (u.role == Role.ADMIN) = true := by rw [hrole]; rfl
  have hmem : inter ∈ st.interactions := by
    have h2 : inter ∈ st.interactions.filter (fun i =>
        !i.is_deleted &&
          (if u.role == Role.ADMIN || u.role == Role.MODERATOR then true
           else i.user == u.id)) := List.mem_of_find?_eq_some hfind
    exact (List.mem_filter.mp h2).1
  constructor
  · simp only [hide, h1, Bool.not_true, Bool.false_eq_true, if_false,
      ite_false, hfind]
    refine ⟨trivial, ?_, ?_, ?_, ?_⟩
    · refine ⟨{ inter with is_hidden := true }, ?_, rfl, rfl⟩
      have himg := List.mem_map_of_mem (fun i =>
          if i.id == inter.id then { i with is_hidden := true } else i) hmem
      simpa using himg
    · intro c hcm hciq
      have hmatch : commentMatches inter.post inter.user inter.content true c =
          false := by
        simp [commentMatches, hciq]
      have himg := List.mem_map_of_mem (fun c2 =>
          if commentMatches inter.post inter.user inter.content true c2 then
            { c2 with is_deleted := true }
          else c2) hcm
      simpa [hmatch] using himg
    · intro c hcm hmatch
      have himg := List.mem_map_of_mem (fun c2 =>
          if commentMatches inter.post inter.user inter.content true c2 then
            { c2 with is_deleted := true }
          else c2) hcm
      simpa [hmatch] using himg
    · intro c hcm hmatch
      have himg := List.mem_map_of_mem (fun c2 =>
          if commentMatches inter.post inter.user inter.content true c2 then
            { c2 with is_deleted := true }
          else c2) hcm
      simpa [hmatch] using himg
  · simp only [unhide, h1, Bool.not_true, Bool.false_eq_true, if_false,
      ite_false, hfind]
    refine ⟨trivial, ?_, ?_, ?_, ?_⟩
    · refine ⟨{ inter with is_hidden := false }, ?_, rfl, rfl⟩
      have himg := List.mem_map_of_mem (fun i =>
          if i.id == inter.id then { i with is_hidden := false } else i) hmem
      simpa using himg
    · intro c hcm hciq
      have hmatch : commentMatches inter.post inter.user inter.content true c =
          false := by
        simp [commentMatches, hciq]
      have himg := List.mem_map_of_mem (fun c2 =>
          if commentMatches inter.post inter.user inter.content true c2 then
            { c2 with is_deleted := false }
          else c2) hcm
      simpa [hmatch] using himg
    · intro c hcm hmatch
      have himg := List.mem_map_of_mem (fun c2 =>
          if commentMatches inter.post inter.user inter.content true c2 then
            { c2 with is_deleted := false }
          else c2) hcm
      simpa [hmatch] using himg
    · intro c hcm hmatch
      have himg := List.mem_map_of_mem (fun c2 =>
          if commentMatches inter.post inter.user inter.content true c2 then
            { c2 with is_deleted := false }
          else c2) hcm
      simpa [hmatch] using himg

/-- Witness for the C10 amended theorem: admin 9 hides interaction 33 on the
collision state. -/
theorem hide_unhide_frame_witness :
    ({ id := 9, role := Role.ADMIN } : User).role = Role.ADMIN ∧
    findInteractionFor stCollide { id := 9, role := Role.ADMIN } 33 =
      some plainInteraction ∧
    ((hide stCollide { id := 9, role := Role.ADMIN } 33).1 = 200 ∧
      (∃ i ∈ (hide stCollide { id := 9, role := Role.ADMIN }
          33).2.interactions,
        i.id = plainInteraction.id ∧ i.is_hidden = true) ∧
      (∀ c ∈ stCollide.comments, c.is_question = false →
        c ∈ (hide stCollide { id := 9, role := Role.ADMIN } 33).2.comments) ∧
      (∀ c ∈ stCollide.comments,
        commentMatches plainInteraction.post plainInteraction.user
          plainInteraction.content true c = false →
        c ∈ (hide stCollide { id := 9, role := Role.ADMIN } 33).2.comments) ∧
      (∀ c ∈ stCollide.comments,
        commentMatches plainInteraction.post plainInteraction.user
          plainInteraction.content true c = true →
        { c with is_deleted := true } ∈
          (hide stCollide { id := 9, role := Role.ADMIN } 33).2.comments)) := by
  refine ⟨rfl, by decide, ?_⟩
  exact (hide_unhide_frame stCollide { id := 9, role := Role.ADMIN } 33
    plainInteraction rfl (by decide)).1

/-! ## C4: question visibility at every tree level -/

/-- C4 counterexample: member 2 viewing replies to their own comment (id 23)
receives user 3's question (id 24) — `get_replies` skips the question filter
entirely when the parent is the viewer's own comment, so a MEMBER viewer can
receive a question they did not author. -/
theorem member_receives_foreign_question_counterexample :
    buriedQuestion.is_question = true ∧ buriedQuestion.user ≠ 2 ∧
    buriedQuestion ∈ get_replies stBuried ownParentComment
      (Viewer.auth { id := 2, role := Role.MEMBER }) := by
  refine ⟨rfl, by decide, by decide⟩

/-- C4 (amended): at every nesting level (the statement is parametric in the
parent node), among non-deleted replies: an anonymous viewer never receives a
question; a viewer whose role is neither ADMIN nor MODERATOR never receives a
question they did not author unless the parent comment is their own; ADMIN
and MODERATOR always receive every non-deleted reply; the question's author
always receives it, and the owner of the parent receives all its non-deleted
replies; the reply count counts exactly the reply list; at top level the
filter has no own-parent exception: an anonymous viewer or a non-moderator
non-admin viewer never receives a foreign question, and ADMIN/MODERATOR
receive every top-level comment of the post.  (Soft-deleted replies are
excluded for every viewer — see C5.) -/
theorem visibility_every_level (st : St) (parent q : Comment) (u : User)
    (pid : Nat) :
    (q.is_question = true → q ∉ get_replies st parent Viewer.anon) ∧
    (q.is_question = true → q.user ≠ u.id → parent.user ≠ u.id →
      u.role ≠ Role.ADMIN → u.role ≠ Role.MODERATOR →
      q ∉ get_replies st parent (Viewer.auth u)) ∧
    ((u.role = Role.ADMIN ∨ u.role = Role.MODERATOR) →
      q ∈ st.comments → q.parent = some parent.id → q.is_deleted = false →
      q ∈ get_replies st parent (Viewer.auth u)) ∧
    (q.user = u.id → q ∈ st.comments → q.parent = some parent.id →
      q.is_deleted = false → q ∈ get_replies st parent (Viewer.auth u)) ∧
    (parent.user = u.id → q ∈ st.comments → q.parent = some parent.id →
      q.is_deleted = false → q ∈ get_replies st parent (Viewer.auth u)) ∧
    (∀ v, get_reply_count st parent v = (get_replies st parent v).length) ∧
    (q.is_question = true → q ∉ public_comment_queryset st pid Viewer.anon) ∧
    (q.is_question = true → q.user ≠ u.id →
      u.role ≠ Role.ADMIN → u.role ≠ Role.MODERATOR →
      q ∉ public_comment_queryset st pid (Viewer.auth u)) ∧
    ((u.role = Role.ADMIN ∨ u.role = Role.MODERATOR) →
      q ∈ st.comments → q.post = pid → q.parent = none →
      q ∈ public_comment_queryset st pid (Viewer.auth u)) := by
  refine ⟨?_, ?_, ?_, ?_, ?_, ?_, ?_, ?_, ?_⟩
  · intro hq hmem
    unfold get_replies at hmem
    have hp := (List.mem_filter.mp hmem).2
    simp [questionReplyFilter, hq] at hp
  · intro hq hne hpne hra hrm hmem
    unfold get_replies at hmem
    have hp := (List.mem_filter.mp hmem).2
    have h1 : (u.role == Role.ADMIN) = false := by
      cases hb : u.role == Role.ADMIN
      · rfl
      · exact absurd (by simpa using hb) hra
    have h2 : (u.role == Role.MODERATOR) = false := by
      cases hb : u.role == Role.MODERATOR
      · rfl
      · exact absurd (by simpa using hb) hrm
    have h3 : (parent.user == u.id) = false := by
      cases hb : parent.user == u.id
      · rfl
      · exact absurd (by simpa using hb) hpne
    have h4 : (q.user == u.id) = false := by
      cases hb : q.user == u.id
      · rfl
      · exact absurd (by simpa using hb) hne
    simp [questionReplyFilter, hq, h1, h2, h3, h4] at hp
  · intro hrole hqmem hqpar hqdel
    have h1 : (u.role == Role.ADMIN || u.role == Role.MODERATOR) = true := by
      rcases hrole with h | h <;> rw [h] <;> rfl
    unfold get_replies
    refine List.mem_filter.mpr ⟨hqmem, ?_⟩
    simp [questionReplyFilter, hqpar, hqdel, h1]
  · intro heq hqmem hqpar hqdel
    have h4 : (q.user == u.id) = true := by rw [heq]; simp
    unfold get_replies
    refine List.mem_filter.mpr ⟨hqmem, ?_⟩
    simp [questionReplyFilter, hqpar, hqdel, h4]
  · intro heq hqmem hqpar hqdel
    have h3 : (parent.user == u.id) = true := by rw [heq]; simp
    unfold get_replies
    refine List.mem_filter.mpr ⟨hqmem, ?_⟩
    simp [questionReplyFilter, hqpar, hqdel, h3]
  · intro v
    rfl
  · intro hq hmem
    unfold public_comment_queryset at hmem
    have hp := (List.mem_filter.mp hmem).2
    simp [hq] at hp
  · intro hq hne hra hrm hmem
    have h1 : (u.role == Role.ADMIN) = false := by
      cases hb : u.role == Role.ADMIN
      · rfl
      · exact absurd (by simpa using hb) hra
    have h2 : (u.role == Role.MODERATOR) = false := by
      cases hb : u.role == Role.MODERATOR
      · rfl
      · exact absurd (by simpa using hb) hrm
    have h4 : (q.user == u.id) = false := by
      cases hb : q.user == u.id
      · rfl
      · exact absurd (by simpa using hb) hne
    have h5 : (u.role == Role.ADMIN || u.role == Role.MODERATOR) = false := by
      rw [h1, h2]; rfl
    simp only [public_comment_queryset, h5, Bool.false_eq_true, if_false,
      ite_false] at hmem
    have hp := (List.mem_filter.mp hmem).2
    simp [hq, h4] at hp
  · intro hrole hqmem hqpost hqpar
    have h1 : (u.role == Role.ADMIN || u.role == Role.MODERATOR) = true := by
      rcases hrole with h | h <;> rw [h] <;> rfl
    simp only [public_comment_queryset, h1, ite_true, if_true]
    exact List.mem_filter.mpr ⟨hqmem, by simp [hqpost, hqpar]⟩

/-- Witness for the C4 amended theorem: the ADMIN viewer receives the buried
question reply (id 24). -/
theorem visibility_every_level_witness :
    (({ id := 9, role := Role.ADMIN } : User).role = Role.ADMIN ∨
      ({ id := 9, role := Role.ADMIN } : User).role = Role.MODERATOR) ∧
    buriedQuestion ∈ stBuried.comments ∧
    buriedQuestion.parent = some ownParentComment.id ∧
    buriedQuestion.is_deleted = false ∧
    buriedQuestion ∈ get_replies stBuried ownParentComment
      (Viewer.auth { id := 9, role := Role.ADMIN }) := by
  refine ⟨Or.inl rfl, by decide, rfl, rfl, ?_⟩
  exact (visibility_every_level stBuried ownParentComment buriedQuestion
    { id := 9, role := Role.ADMIN } 1).2.2.1 (Or.inl rfl) (by decide) rfl rfl

/-! ## C5: soft-delete retention and masking -/

/-- C5 counterexample: the soft-deleted reply (id 25) is excluded from the
reply list of its parent even for an ADMIN viewer — `get_replies` filters
`is_deleted=False` — so a soft-deleted comment is not preserved at every
level of the serialized tree. -/
theorem deleted_reply_excluded_counterexample :
    deletedReply.is_deleted = true ∧
    deletedReply.parent = some ownParentComment.id ∧
    deletedReply ∉ get_replies stDeletedReply ownParentComment
      (Viewer.auth { id := 9, role := Role.ADMIN }) := by
  refine ⟨rfl, rfl, by decide⟩

/-- C5 (amended): the serialized content of every soft-deleted comment is the
fixed placeholder for all viewers, and a non-deleted comment serializes its
own content; a soft-deleted comment is retained in the top-level comment
list (for ADMIN/MODERATOR viewers always, and for anonymous viewers when it
is not a question) — deletion is not a top-level exclusion criterion — but a
soft-deleted reply is excluded from every reply list and reply count. -/
theorem soft_delete_masking (st : St) (c q parent : Comment) (pid : Nat)
    (v : Viewer) :
    (c.is_deleted = true →
      displayContent c = "This comment has been removed by moderation.") ∧
    (c.is_deleted = false → displayContent c = c.content) ∧
    (q.is_deleted = true → q ∉ get_replies st parent v) ∧
    ((∀ r ∈ st.comments, r.id = q.id → r.is_deleted = true) →
      get_reply_count
        { st with comments := st.comments.filter (fun r => !(r.id == q.id)) }
        parent v =
      get_reply_count st parent v) ∧
    (c ∈ st.comments → c.post = pid → c.parent = none → c.is_deleted = true →
      (∀ u, (u.role = Role.ADMIN ∨ u.role = Role.MODERATOR) →
        c ∈ public_comment_queryset st pid (Viewer.auth u)) ∧
      (c.is_question = false → c ∈ public_comment_queryset st pid Viewer.anon)) := by
  refine ⟨?_, ?_, ?_, ?_, ?_⟩
  · intro h
    simp [displayContent, h]
  · intro h
    simp [displayContent, h]
  · intro h hmem
    unfold get_replies at hmem
    have hp := (List.mem_filter.mp hmem).2
    simp [h] at hp
  · intro hall
    unfold get_reply_count
    rw [List.filter_filter]
    apply congrArg List.length
    apply List.filter_congr
    intro r hr
    cases hb : r.id == q.id
    · simp [hb]
    · have hdel : r.is_deleted = true := hall r hr (by simpa using hb)
      simp [hb, hdel]
  · intro hmem hpost hpar hdel
    constructor
    · intro u hrole
      have h1 : (u.role == Role.ADMIN || u.role == Role.MODERATOR) = true := by
        rcases hrole with h | h <;> rw [h] <;> rfl
      simp only [public_comment_queryset, h1, ite_true, if_true]
      exact List.mem_filter.mpr ⟨hmem, by simp [hpost, hpar]⟩
    · intro hq
      simp only [public_comment_queryset]
      refine List.mem_filter.mpr ⟨?_, by simp [hq]⟩
      exact List.mem_filter.mpr ⟨hmem, by simp [hpost, hpar]⟩

/-- Witness for the C5 amended theorem: the deleted reply (id 25) is masked
and excluded from the admin's reply list. -/
theorem soft_delete_masking_witness :
    deletedReply.is_deleted = true ∧
    displayContent deletedReply =
      "This comment has been removed by moderation." ∧
    deletedReply ∉ get_replies stDeletedReply ownParentComment
      (Viewer.auth { id := 9, role := Role.ADMIN }) := by
  refine ⟨rfl, ?_, ?_⟩
  · exact (soft_delete_masking stDeletedReply deletedReply deletedReply
      ownParentComment 1 (Viewer.auth { id := 9, role := Role.ADMIN })).1 rfl
  · exact (soft_delete_masking stDeletedReply deletedReply deletedReply
      ownParentComment 1 (Viewer.auth { id := 9, role := Role.ADMIN })).2.2.1 rfl

end Church
